import Mathlib

/-!
Shallow embedding of `src/imdb_rating_predict_model.py`.

The script fits a `Pipeline` of a `ColumnTransformer` (CountVectorizer on
`Text`, StandardScaler on `n_words`, OrdinalEncoder on `sentiment`) followed
by `Ridge`, tunes `ridge__alpha` over `np.arange(500, 1000, 50)` with
`GridSearchCV` (default 5-fold cross validation, default `error_score`,
`refit=True`), writes the cv results sorted by descending `mean_test_score`
to a csv, refits the best estimator on the whole frame and dumps it with
joblib.  The numerical primitives (square root for the scaler, the ridge
normal-equation solver) are the library's and are passed in explicitly as a
`NumericBackend`; everything else — the column routing, the tokenizer, the
encoder, the grid enumeration, the scoring/ranking/selection policy, the
error handling and the order of file-system effects in `main` — is modelled
concretely from the source.
-/

/-- Module-level feature configuration (source lines 33-37). -/
def numeric_features : List String := ["n_words"]

/-- Column holding the free text (source line 34). -/
def text_feature : String := "Text"

/-- Columns routed to the ordinal encoder (source line 35). -/
def ordinal_features : List String := ["sentiment"]

/-- Columns dropped from the feature frame (source line 36). -/
def drop_features : List String := ["Id", "Author"]

/-- The regression target column (source line 37). -/
def target : String := "Rating"

/-- One row of the feature frame `X_train` (columns `Id, Author, Text,
n_words, sentiment`; `Rating` is carried separately as the target `y`). -/
structure Row where
  id : String
  author : String
  text : String
  n_words : ℚ
  sentiment : String
  deriving DecidableEq, Repr

/-- Structural equality on results is decidable. -/
instance {e a : Type} [DecidableEq e] [DecidableEq a] : DecidableEq (Except e a)
  | .error x, .error y =>
      if h : x = y then .isTrue (by rw [h]) else .isFalse (by intro hc; cases hc; exact h rfl)
  | .error _, .ok _ => .isFalse (by intro hc; cases hc)
  | .ok _, .error _ => .isFalse (by intro hc; cases hc)
  | .ok x, .ok y =>
      if h : x = y then .isTrue (by rw [h]) else .isFalse (by intro hc; cases hc; exact h rfl)

/-- Errors a run can raise, named after the Python exceptions that the
library calls raise at the corresponding places. -/
inductive RunError where
  /-- `OrdinalEncoder` raises `ValueError: Found unknown categories` — the
  spec's `UnknownCategoryError`. -/
  | unknownCategory (value : String)
  /-- `pandas.to_csv` raises `FileNotFoundError`/`OSError` when the output
  directory does not exist. -/
  | fileNotFound (path : String)
  /-- Reading an undefined global name raises `NameError`. -/
  | nameError (name : String)
  deriving DecidableEq, Repr

/-- A character of the `\w` class of `CountVectorizer`'s default
`token_pattern` `(?u)\b\w\w+\b`. -/
def isWordChar (c : Char) : Bool := c.isAlphanum || c = '_'

/-- Accumulate maximal runs of word characters (the run collected so far is
carried reversed in `cur`), keeping only runs of length at least two — the
matches of `\b\w\w+\b`. -/
def tokenizeChars : List Char → List Char → List String
  | [], cur => if 2 ≤ cur.length then [String.mk cur.reverse] else []
  | c :: cs, cur =>
      if isWordChar c then tokenizeChars cs (c :: cur)
      else (if 2 ≤ cur.length then [String.mk cur.reverse] else []) ++
           tokenizeChars cs []

/-- `CountVectorizer`'s default analyzer: lowercase, then take the maximal
runs of word characters of length at least two. -/
def tokenize (s : String) : List String :=
  tokenizeChars (s.data.map Char.toLower) []

/-- The library's built-in English stop-word list (`stop_words='english'`
on source line 48): a fixed set of frequent English function words removed
from every document before counting. -/
def englishStopWords : List String :=
  ["a", "about", "above", "across", "after", "afterwards", "again", "against",
   "all", "almost", "alone", "along", "already", "also", "although", "always",
   "am", "among", "amongst", "amoungst", "amount", "an", "and", "another",
   "any", "anyhow", "anyone", "anything", "anyway", "anywhere", "are",
   "around", "as", "at", "back", "be", "became", "because", "become",
   "becomes", "becoming", "been", "before", "beforehand", "behind", "being",
   "below", "beside", "besides", "between", "beyond", "bill", "both",
   "bottom", "but", "by", "call", "can", "cannot", "cant", "co", "con",
   "could", "couldnt", "cry", "de", "describe", "detail", "do", "done",
   "down", "due", "during", "each", "eg", "eight", "either", "eleven",
   "else", "elsewhere", "empty", "enough", "etc", "even", "ever", "every",
   "everyone", "everything", "everywhere", "except", "few", "fifteen",
   "fifty", "fill", "find", "fire", "first", "five", "for", "former",
   "formerly", "forty", "found", "four", "from", "front", "full", "further",
   "get", "give", "go", "had", "has", "hasnt", "have", "he", "hence", "her",
   "here", "hereafter", "hereby", "herein", "hereupon", "hers", "herself",
   "him", "himself", "his", "how", "however", "hundred", "i", "ie", "if",
   "in", "inc", "indeed", "interest", "into", "is", "it", "its", "itself",
   "keep", "last", "latter", "latterly", "least", "less", "ltd", "made",
   "many", "may", "me", "meanwhile", "might", "mill", "mine", "more",
   "moreover", "most", "mostly", "move", "much", "must", "my", "myself",
   "name", "namely", "neither", "never", "nevertheless", "next", "nine",
   "no", "nobody", "none", "noone", "nor", "not", "nothing", "now",
   "nowhere", "of", "off", "often", "on", "once", "one", "only", "onto",
   "or", "other", "others", "otherwise", "our", "ours", "ourselves", "out",
   "over", "own", "part", "per", "perhaps", "please", "put", "rather", "re",
   "same", "see", "seem", "seemed", "seeming", "seems", "serious", "several",
   "she", "should", "show", "side", "since", "sincere", "six", "sixty",
   "so", "some", "somehow", "someone", "something", "sometime", "sometimes",
   "somewhere", "still", "such", "system", "take", "ten", "than", "that",
   "the", "their", "them", "themselves", "then", "thence", "there",
   "thereafter", "thereby", "therefore", "therein", "thereupon", "these",
   "they", "thick", "thin", "third", "this", "those", "though", "three",
   "through", "throughout", "thru", "thus", "to", "together", "too", "top",
   "toward", "towards", "twelve", "twenty", "two", "un", "under", "until",
   "up", "upon", "us", "very", "via", "was", "we", "well", "were", "what",
   "whatever", "when", "whence", "whenever", "where", "whereafter",
   "whereas", "whereby", "wherein", "whereupon", "wherever", "whether",
   "which", "while", "whither", "who", "whoever", "whole", "whom", "whose",
   "why", "will", "with", "within", "without", "would", "yet", "you",
   "your", "yours", "yourself", "yourselves"]

/-- Total occurrence count of every distinct non-stop-word token of the
corpus, in first-occurrence order. -/
def termCounts (docs : List String) : List (String × ℕ) :=
  let toks := (docs.flatMap tokenize).filter (fun t => !englishStopWords.contains t)
  toks.dedup.map (fun t => (t, toks.count t))

/-- Order on counted terms: descending by corpus frequency. -/
def byCountDesc (a b : String × ℕ) : Prop := b.2 ≤ a.2

instance : DecidableRel byCountDesc := fun _ _ => Nat.decLe _ _

/-- Lexicographic comparison of character lists by code point. -/
def lexLe : List Char → List Char → Bool
  | [], _ => true
  | _ :: _, [] => false
  | a :: as', b :: bs =>
      if a.toNat = b.toNat then lexLe as' bs else decide (a.toNat < b.toNat)

/-- Alphabetical order on the retained vocabulary. -/
def alphabetical (a b : String) : Prop := lexLe a.data b.data = true

instance : DecidableRel alphabetical := fun _ _ => instDecidableEqBool _ _

/-- `CountVectorizer(max_features=20_000, stop_words='english').fit`: keep
the 20 000 most frequent non-stop-word tokens of the training corpus and
sort the retained vocabulary alphabetically. -/
def fitVocabulary (docs : List String) : List String :=
  ((List.insertionSort byCountDesc (termCounts docs)).take 20000).map
    (fun p => p.1) |>.insertionSort alphabetical

/-- `CountVectorizer.transform` on a single document: one token-occurrence
count per vocabulary entry. -/
def countVector (vocab : List String) (doc : String) : List ℕ :=
  vocab.map (fun t => (tokenize doc).count t)

/-- The fixed category order of the `OrdinalEncoder`
(`categories=[['neg', 'compound', 'neu', 'pos']]`, source line 50). -/
def ordinalCategories : List String := ["neg", "compound", "neu", "pos"]

/-- `OrdinalEncoder.transform` on one value: its position in the declared
order, or an unknown-category error (the encoder's default
`handle_unknown='error'`). -/
def ordinalEncode (v : String) : Except RunError ℕ :=
  match ordinalCategories.findIdx? (fun c => c == v) with
  | some i => .ok i
  | none => .error (.unknownCategory v)

/-- The embedding of a counted feature into the rational feature matrix. -/
def natToRat (n : ℕ) : ℚ := n

/-- The learned state of the fitted `ColumnTransformer`: the text
vocabulary and the scaler's mean and scale. -/
structure FittedPreprocessor where
  vocab : List String
  mean : ℚ
  scale : ℚ
  deriving DecidableEq, Repr

/-- `ColumnTransformer.transform` on one row: the three transformer outputs
concatenated column-wise in declaration order (text counts, scaled
`n_words`, ordinal `sentiment`); `Id` and `Author` are not routed to any
transformer and are dropped. -/
def transformRow (pp : FittedPreprocessor) (r : Row) : Except RunError (List ℚ) :=
  match ordinalEncode r.sentiment with
  | .error e => .error e
  | .ok code =>
      .ok (List.map natToRat (countVector pp.vocab r.text) ++
           [(r.n_words - pp.mean) / pp.scale] ++ [natToRat code])

/-- `ColumnTransformer.transform` on the whole frame, row by row, keeping
row order; the first unknown category aborts the transform. -/
def transformFrame (pp : FittedPreprocessor) : List Row → Except RunError (List (List ℚ))
  | [] => .ok []
  | r :: rs =>
      match transformRow pp r with
      | .error e => .error e
      | .ok v =>
          match transformFrame pp rs with
          | .error e => .error e
          | .ok vs => .ok (v :: vs)

/-- The numerical primitives the script delegates to the library (spec §1
lists them as external collaborators): the square root used by
`StandardScaler` and the ridge normal-equation solver that turns the design
matrix and the targets into weights and an intercept for a given `alpha`. -/
structure NumericBackend where
  sqrt : ℚ → ℚ
  ridgeSolve : ℕ → List (List ℚ) → List ℚ → List ℚ × ℚ

/-- The state of one `Pipeline(steps=[('prepro', preprocessor), ('ridge',
Ridge())])` object: preprocessor state, current `ridge__alpha`, and the
regressor's coefficients (`none` before any fit). -/
structure FittedPipeline where
  pre : FittedPreprocessor
  alpha : ℕ
  coef : Option (List ℚ × ℚ)
  deriving DecidableEq, Repr

/-- A freshly constructed, unfitted pipeline (source lines 46-58); `Ridge()`
defaults `alpha` to 1 before the search sets it. -/
def initPipeline : FittedPipeline :=
  { pre := { vocab := [], mean := 0, scale := 1 }, alpha := 1, coef := none }

/-- `ColumnTransformer.fit`: learn the vocabulary from the `Text` column and
the mean and scale (square root of the population variance) of `n_words`. -/
def fitPreprocessor (nb : NumericBackend) (rows : List Row) : FittedPreprocessor :=
  let xs := rows.map (fun r => r.n_words)
  let n : ℚ := (xs.length : ℚ)
  let mean : ℚ := if xs.length = 0 then 0 else xs.sum / n
  let var : ℚ := if xs.length = 0 then 0
                 else (xs.map (fun x => (x - mean) ^ 2)).sum / n
  { vocab := fitVocabulary (rows.map (fun r => r.text)),
    mean := mean,
    scale := nb.sqrt var }

/-- `Pipeline.fit(X, y)` with `ridge__alpha = alpha`: refit the
preprocessor on the given rows, transform them, and recompute the ridge
coefficients from scratch; nothing of the pipeline's previous learned state
(`st`) enters the result. -/
def fitPipeline (nb : NumericBackend) ( _st : FittedPipeline) (alpha : ℕ)
    (rows : List Row) (ys : List ℚ) : Except RunError FittedPipeline :=
  match transformFrame (fitPreprocessor nb rows) rows with
  | .error e => .error e
  | .ok design => .ok { pre := fitPreprocessor nb rows, alpha := alpha,
                        coef := some (nb.ridgeSolve alpha design ys) }

/-- Dot product of a weight vector with a feature vector. -/
def dot : List ℚ → List ℚ → ℚ
  | [], _ => 0
  | _, [] => 0
  | a :: as', b :: bs => a * b + dot as' bs

/-- `Pipeline.predict`: transform with the already-fitted preprocessor, then
apply the regressor's linear map. -/
def predictPipeline (pl : FittedPipeline) (rows : List Row) :
    Except RunError (List ℚ) :=
  match transformFrame pl.pre rows with
  | .error e => .error e
  | .ok design =>
      match pl.coef with
      | none => .ok (design.map (fun _ => 0))
      | some (w, b) => .ok (design.map (fun x => dot w x + b))

/-- `np.arange` on naturals: `start, start + step, ...` strictly below
`stop`. -/
def arange (start stop step : ℕ) : List ℕ :=
  (List.range ((stop - start + step - 1) / step)).map (fun i => start + i * step)

/-- The candidate `ridge__alpha` values (source lines 62-64:
`np.arange(500, 1000, 50)`). -/
def paramGrid : List ℕ := arange 500 1000 50

/-- `GridSearchCV`'s default fold count (`cv=None` → 5-fold). -/
def cvFolds : ℕ := 5

/-- One row of `cv_results_`: the candidate's `alpha`, its per-fold held-out
R2 scores (`none` models the NaN recorded when that fold's fit raised, the
default `error_score`), and `mean_test_score` (`none` models NaN). -/
structure CVRow where
  alpha : ℕ
  foldScores : List (Option ℚ)
  meanTestScore : Option ℚ
  deriving DecidableEq, Repr

/-- `mean_test_score` of one candidate: the mean of its fold scores, or NaN
(`none`) as soon as any fold score is NaN. -/
def meanScore (ss : List (Option ℚ)) : Option ℚ :=
  if ss.all (fun s => s.isSome) then
    some ((ss.filterMap id).sum / (ss.length : ℚ))
  else none

/-- Evaluate one candidate: run every cross-validation fold through the
given per-fold fit-and-score function (`none` = that fold's fit raised) and
aggregate. -/
def evalCandidate (foldEval : ℕ → ℕ → Option ℚ) (a : ℕ) : CVRow :=
  let fs := (List.range cvFolds).map (foldEval a)
  { alpha := a, foldScores := fs, meanTestScore := meanScore fs }

/-- `cv_results_` in candidate enumeration order: exhaustive evaluation of
the whole grid, one row per candidate. -/
def cvResults (foldEval : ℕ → ℕ → Option ℚ) : List CVRow :=
  paramGrid.map (evalCandidate foldEval)

/-- Comparison on possibly-NaN mean scores: NaN sorts below every real
score (numpy ranks NaN last, pandas puts NaN last in a descending sort). -/
def scoreLe (a b : Option ℚ) : Bool :=
  match a, b with
  | none, _ => true
  | some _, none => false
  | some x, some y => decide (x ≤ y)

/-- Report order of `sort_values(by='mean_test_score', ascending=False)`:
descending mean held-out score. -/
def reportOrder (a b : CVRow) : Prop :=
  scoreLe b.meanTestScore a.meanTestScore = true

instance : DecidableRel reportOrder := fun _ _ => instDecidableEqBool _ _

/-- The maximum `mean_test_score` of the results (NaN counting as bottom). -/
def maxMean (rows : List CVRow) : Option ℚ :=
  rows.foldr (fun r m => if scoreLe m r.meanTestScore then r.meanTestScore else m)
    none

/-- `best_index_`: `rank_test_score` is minimal exactly on the rows whose
mean equals the maximum, and `argmin` returns the first of them, so the
first-enumerated candidate attaining the maximum mean wins. -/
def bestIndex (rows : List CVRow) : ℕ :=
  rows.findIdx (fun r => decide (r.meanTestScore = maxMean rows))

/-- The `GridSearchCV` attributes the script uses after `fit`. -/
structure SearchOutcome where
  report : List CVRow
  bestAlpha : ℕ
  bestScore : Option ℚ
  deriving DecidableEq, Repr

/-- `GridSearchCV.fit` followed by the script's report construction: the
full grid is evaluated (fold errors recorded as NaN, never fatal), the
report is `cv_results_` sorted by descending mean test score, and the best
entry is the first-enumerated candidate with maximal mean. -/
def runGridSearch (foldEval : ℕ → ℕ → Option ℚ) : SearchOutcome :=
  let rows := cvResults foldEval
  let b := rows.getD (bestIndex rows) { alpha := 0, foldScores := [], meanTestScore := none }
  { report := rows.insertionSort reportOrder,
    bestAlpha := b.alpha,
    bestScore := b.meanTestScore }

/-- The file-system state visible to one run: whether the output directory
exists, and the contents of the two artifacts once written. -/
structure FileSystem where
  dirExists : Bool
  csvWritten : Option (List CVRow)
  modelWritten : Option FittedPipeline
  deriving DecidableEq, Repr

/-- `main(train, out)` (source lines 40-86) as a state transformer on the
file system, in source order:
line 71 `hyper_parameters_search.fit` (which, with `refit=True`, ends by
refitting `best_estimator_` on the whole frame — a raise there aborts
before any write);
lines 75-77 build the report and `to_csv` it (pandas does not create the
output directory: a missing directory raises there);
lines 80-81 rebind `final_model` to `best_estimator_` and refit it on the
entire frame;
line 84 the status print reads the global `arguments`, which is only bound
when the script runs through `__main__` (`argumentsDefined`), raising
`NameError` otherwise;
line 85 `Path(out).mkdir(parents=True, exist_ok=True)`;
line 86 `joblib.dump` of `final_model`.
Returns the final file-system state and the uncaught exception, if any. -/
def mainRun (nb : NumericBackend) (foldEval : ℕ → ℕ → Option ℚ)
    (rows : List Row) (ys : List ℚ) (argumentsDefined : Bool)
    (fs0 : FileSystem) : FileSystem × Option RunError :=
  let outcome := runGridSearch foldEval
  match fitPipeline nb initPipeline outcome.bestAlpha rows ys with
  | .error e => (fs0, some e)
  | .ok bestEstimator =>
      if fs0.dirExists = false then
        (fs0, some (.fileNotFound "out/hyper_param_search_result.csv"))
      else
        let fs1 : FileSystem := { fs0 with csvWritten := some outcome.report }
        match fitPipeline nb bestEstimator outcome.bestAlpha rows ys with
        | .error e => (fs1, some e)
        | .ok finalModel =>
            if argumentsDefined = false then
              (fs1, some (.nameError "arguments"))
            else
              let fs2 : FileSystem := { fs1 with dirExists := true }
              ({ fs2 with modelWritten := some finalModel }, none)

theorem scoreLe_none_left (a : Option ℚ) : scoreLe none a = true := rfl

theorem scoreLe_refl (a : Option ℚ) : scoreLe a a = true := by
  cases a with
  | none => rfl
  | some x => simp [scoreLe]

theorem scoreLe_total (a b : Option ℚ) : scoreLe a b = true ∨ scoreLe b a = true := by
  cases a with
  | none => exact Or.inl rfl
  | some x =>
      cases b with
      | none => exact Or.inr rfl
      | some y =>
          simp only [scoreLe, decide_eq_true_eq]
          exact le_total x y

theorem scoreLe_trans {a b c : Option ℚ} (h1 : scoreLe a b = true)
    (h2 : scoreLe b c = true) : scoreLe a c = true := by
  cases a <;> cases b <;> cases c <;>
    simp only [scoreLe, decide_eq_true_eq] at h1 h2 ⊢ <;> try trivial
  exact le_trans h1 h2

instance : IsTotal CVRow reportOrder :=
  ⟨fun a b => scoreLe_total b.meanTestScore a.meanTestScore⟩

instance : IsTrans CVRow reportOrder :=
  ⟨fun _ _ _ hab hbc => scoreLe_trans hbc hab⟩

theorem maxMean_cons (r : CVRow) (rs : List CVRow) :
    maxMean (r :: rs) =
      if scoreLe (maxMean rs) r.meanTestScore then r.meanTestScore
      else maxMean rs := rfl

theorem maxMean_upper {rows : List CVRow} {r : CVRow} (hr : r ∈ rows) :
    scoreLe r.meanTestScore (maxMean rows) = true := by
  induction rows with
  | nil => cases hr
  | cons a rs ih =>
      rw [maxMean_cons]
      rcases List.mem_cons.mp hr with h | h
      · subst h
        by_cases hc : scoreLe (maxMean rs) r.meanTestScore = true
        · simp [hc, scoreLe_refl]
        · simp [hc]
          rcases scoreLe_total (maxMean rs) r.meanTestScore with h1 | h1
          · exact absurd h1 hc
          · exact h1
      · by_cases hc : scoreLe (maxMean rs) a.meanTestScore = true
        · simp [hc]
          exact scoreLe_trans (ih h) hc
        · simp [hc]
          exact ih h

theorem maxMean_attained {rows : List CVRow} (hne : rows ≠ []) :
    ∃ r ∈ rows, r.meanTestScore = maxMean rows := by
  induction rows with
  | nil => exact absurd rfl hne
  | cons a rs ih =>
      rw [maxMean_cons]
      by_cases hc : scoreLe (maxMean rs) a.meanTestScore = true
      · exact ⟨a, List.mem_cons_self a rs, by simp [hc]⟩
      · have hrs : rs ≠ [] := by
          intro h
          subst h
          exact hc (scoreLe_none_left a.meanTestScore)
        rcases ih hrs with ⟨r, hr, hme⟩
        exact ⟨r, List.mem_cons_of_mem a hr, by simp [hc, hme]⟩

theorem bestIndex_lt {rows : List CVRow} (hne : rows ≠ []) :
    bestIndex rows < rows.length := by
  rcases maxMean_attained hne with ⟨r, hr, hme⟩
  exact List.findIdx_lt_length_of_exists ⟨r, hr, by simp [hme]⟩

theorem fitPipeline_st_irrel (nb : NumericBackend) (st st' : FittedPipeline)
    (alpha : ℕ) (rows : List Row) (ys : List ℚ) :
    fitPipeline nb st alpha rows ys = fitPipeline nb st' alpha rows ys := rfl

theorem fitPipeline_alpha {nb : NumericBackend} {st : FittedPipeline}
    {alpha : ℕ} {rows : List Row} {ys : List ℚ} {m : FittedPipeline}
    (h : fitPipeline nb st alpha rows ys = .ok m) : m.alpha = alpha := by
  unfold fitPipeline at h
  cases ht : transformFrame (fitPreprocessor nb rows) rows with
  | error e =>
      simp only [ht] at h
      cases h
  | ok design =>
      simp only [ht] at h
      cases h
      rfl

theorem transformRow_length {pp : FittedPreprocessor} {r : Row} {v : List ℚ}
    (h : transformRow pp r = .ok v) : v.length = pp.vocab.length + 2 := by
  unfold transformRow at h
  cases he : ordinalEncode r.sentiment with
  | error e =>
      simp only [he] at h
      cases h
  | ok code =>
      simp only [he] at h
      cases h
      rw [List.length_append, List.length_append, List.length_map, countVector,
        List.length_map, List.length_singleton, List.length_singleton]

theorem transformFrame_shape {pp : FittedPreprocessor} :
    ∀ {rows : List Row} {out : List (List ℚ)},
      transformFrame pp rows = .ok out →
      out.length = rows.length ∧ ∀ v ∈ out, v.length = pp.vocab.length + 2 := by
  intro rows
  induction rows with
  | nil =>
      intro out h
      unfold transformFrame at h
      cases h
      exact ⟨rfl, fun v hv => absurd hv (List.not_mem_nil v)⟩
  | cons r rs ih =>
      intro out h
      unfold transformFrame at h
      cases hr : transformRow pp r with
      | error e =>
          simp only [hr] at h
          cases h
      | ok v =>
          simp only [hr] at h
          cases hrs : transformFrame pp rs with
          | error e =>
              simp only [hrs] at h
              cases h
          | ok vs =>
              simp only [hrs] at h
              cases h
              obtain ⟨h1, h2⟩ := ih hrs
              refine ⟨by simp [h1], ?_⟩
              intro w hw
              rcases List.mem_cons.mp hw with hww | hww
              · subst hww
                exact transformRow_length hr
              · exact h2 w hww

/-- C4: the hyperparameter search space is exactly the ten values 500..950
in steps of 50 (`np.arange(500, 1000, 50)`, exclusive upper bound 1000),
enumerated in that order; the search evaluates every candidate exhaustively
and produces exactly one result row (hence one report row) per candidate. -/
theorem param_grid_exhaustive (foldEval : ℕ → ℕ → Option ℚ) :
    paramGrid = [500, 550, 600, 650, 700, 750, 800, 850, 900, 950] ∧
    paramGrid.length = 10 ∧
    List.map (fun r => r.alpha) (cvResults foldEval) = paramGrid ∧
    (runGridSearch foldEval).report.length = paramGrid.length := by
  refine ⟨by decide, by decide, ?_, ?_⟩
  · unfold cvResults
    rw [List.map_map]
    have hc : ((fun r : CVRow => r.alpha) ∘ evalCandidate foldEval)
        = fun a => a := by
      funext a
      rfl
    rw [hc, List.map_id']
  · have hperm := List.perm_insertionSort reportOrder (cvResults foldEval)
    have h1 : (runGridSearch foldEval).report.length
        = (cvResults foldEval).length := hperm.length_eq
    rw [h1]
    unfold cvResults
    rw [List.length_map]

/-- C5: a sentiment outside the declared set {neg, compound, neu, pos}
makes the ordinal transform — and hence the row transform — fail with the
unknown-category error rather than encoding the value as missing, while
each declared value is encoded as its position in the fixed order
neg < compound < neu < pos. -/
theorem ordinal_unknown_category_errors (pp : FittedPreprocessor) (r : Row)
    (h : r.sentiment ∉ ordinalCategories) :
    ordinalEncode r.sentiment = .error (.unknownCategory r.sentiment) ∧
    transformRow pp r = .error (.unknownCategory r.sentiment) ∧
    (ordinalEncode "neg" = .ok 0 ∧ ordinalEncode "compound" = .ok 1 ∧
     ordinalEncode "neu" = .ok 2 ∧ ordinalEncode "pos" = .ok 3) := by
  have hnone : ordinalCategories.findIdx? (fun c => c == r.sentiment) = none := by
    rw [List.findIdx?_eq_none_iff]
    intro x hx
    rw [beq_eq_false_iff_ne]
    intro hxv
    subst hxv
    exact h hx
  have he : ordinalEncode r.sentiment = .error (.unknownCategory r.sentiment) := by
    unfold ordinalEncode
    rw [hnone]
  refine ⟨he, ?_, by decide, by decide, by decide, by decide⟩
  unfold transformRow
  rw [he]

/-- C5 witness: the undeclared sentiment value "great" is rejected. -/
theorem ordinal_unknown_category_errors_witness :
    ("great" ∉ ordinalCategories) ∧
    transformRow initPipeline.pre ⟨"1", "u", "fine", 3, "great"⟩
      = .error (.unknownCategory "great") :=
  ⟨by decide,
   (ordinal_unknown_category_errors initPipeline.pre
      ⟨"1", "u", "fine", 3, "great"⟩ (by decide)).2.1⟩

/-- C7: for a fixed fitted preprocessor the transform yields exactly one
output row per input row, every output row has the same width (vocabulary
width plus one scaled-numeric plus one ordinal column), and the unrouted
`Id` and `Author` columns contribute nothing: rows agreeing on `Text`,
`n_words` and `sentiment` transform identically. -/
theorem preprocessor_shape_invariants (pp : FittedPreprocessor)
    (rows : List Row) (out : List (List ℚ))
    (h : transformFrame pp rows = .ok out) :
    out.length = rows.length ∧
    (∀ v ∈ out, v.length = pp.vocab.length + 2) ∧
    (∀ r r' : Row, r.text = r'.text → r.n_words = r'.n_words →
      r.sentiment = r'.sentiment → transformRow pp r = transformRow pp r') := by
  obtain ⟨h1, h2⟩ := transformFrame_shape h
  refine ⟨h1, h2, ?_⟩
  intro r r' ht hn hs
  cases r
  cases r'
  dsimp only at ht hn hs
  subst ht
  subst hn
  subst hs
  rfl

/-- C7 witness: a one-row frame with vocabulary of width one transforms to
one row of width three. -/
theorem preprocessor_shape_invariants_witness :
    transformFrame ⟨["aa"], 0, 1⟩ [⟨"i", "u", "aa", 1, "neg"⟩]
        = .ok [[(1 : ℚ), 1, 0]] ∧
    ([[(1 : ℚ), 1, 0]] : List (List ℚ)).length = 1 :=
  ⟨by with_unfolding_all rfl,
   (preprocessor_shape_invariants ⟨["aa"], 0, 1⟩ [⟨"i", "u", "aa", 1, "neg"⟩]
      [[(1 : ℚ), 1, 0]] (by with_unfolding_all rfl)).1⟩

/-- C8: fitting is deterministic and from scratch: the fitted pipeline, and
therefore its predictions on any fixed held-out row set, do not depend on
whatever learned state (previous coefficients included) the pipeline object
carried before the fit; fitting twice with the same inputs gives the same
predictions. -/
theorem fit_deterministic_from_scratch (nb : NumericBackend) (alpha : ℕ)
    (rows : List Row) (ys : List ℚ) (st1 st2 : FittedPipeline)
    (testRows : List Row) :
    fitPipeline nb st1 alpha rows ys = fitPipeline nb st2 alpha rows ys ∧
    (fitPipeline nb st1 alpha rows ys).bind (fun m => predictPipeline m testRows)
      = (fitPipeline nb st2 alpha rows ys).bind
          (fun m => predictPipeline m testRows) :=
  ⟨fitPipeline_st_irrel nb st1 st2 alpha rows ys, by
    rw [fitPipeline_st_irrel nb st1 st2 alpha rows ys]⟩

/-- C9: transforming an empty text field under any fitted vocabulary
succeeds and yields the all-zero count vector of the vocabulary's width,
and a fitted vocabulary never exceeds the 20000-token cap. -/
theorem empty_text_zero_vector (docs : List String) (r : Row)
    (h : r.text = "") :
    countVector (fitVocabulary docs) r.text
      = List.replicate (fitVocabulary docs).length 0 ∧
    (fitVocabulary docs).length ≤ 20000 := by
  constructor
  · rw [h]
    have htok : tokenize "" = [] := rfl
    unfold countVector
    rw [htok]
    simp only [List.count_nil]
    rw [List.map_const']
  · have hperm := List.perm_insertionSort alphabetical
      (List.map (fun p => p.1)
        ((List.insertionSort byCountDesc (termCounts docs)).take 20000))
    have h1 : (fitVocabulary docs).length
        = (List.map (fun p => p.1)
            ((List.insertionSort byCountDesc (termCounts docs)).take 20000)).length :=
      hperm.length_eq
    rw [h1, List.length_map, List.length_take]
    exact inf_le_left

/-- C9 witness: the two-token corpus gives a width-two vocabulary and the
empty document counts to the zero vector. -/
theorem empty_text_zero_vector_witness :
    countVector (fitVocabulary ["good movie"]) ""
      = List.replicate (fitVocabulary ["good movie"]).length 0 ∧
    (fitVocabulary ["good movie"]).length ≤ 20000 :=
  empty_text_zero_vector ["good movie"] ⟨"9", "u", "", 0, "pos"⟩ rfl

theorem bestIndex_mean {rows : List CVRow} (hb : bestIndex rows < rows.length) :
    (rows.get ⟨bestIndex rows, hb⟩).meanTestScore = maxMean rows := by
  rw [List.get_eq_getElem]
  apply of_decide_eq_true
  unfold bestIndex at hb
  exact @List.findIdx_getElem _
    (fun r => decide (r.meanTestScore = maxMean rows)) rows hb

theorem bestIndex_first {rows : List CVRow} (hb : bestIndex rows < rows.length)
    (j : Fin rows.length) (hj : (j : ℕ) < bestIndex rows) :
    (rows.get j).meanTestScore ≠ maxMean rows := by
  unfold bestIndex at hb hj
  have hfi := (@List.findIdx_eq _
    (fun r => decide (r.meanTestScore = maxMean rows)) rows
    (rows.findIdx (fun r => decide (r.meanTestScore = maxMean rows))) hb).mp rfl
  have hpj := hfi.2 j hj
  rw [List.get_eq_getElem]
  exact of_decide_eq_false hpj

theorem runGridSearch_best (foldEval : ℕ → ℕ → Option ℚ)
    (hb : bestIndex (cvResults foldEval) < (cvResults foldEval).length) :
    (runGridSearch foldEval).bestAlpha
      = ((cvResults foldEval).get ⟨bestIndex (cvResults foldEval), hb⟩).alpha ∧
    (runGridSearch foldEval).bestScore
      = ((cvResults foldEval).get ⟨bestIndex (cvResults foldEval), hb⟩).meanTestScore := by
  unfold runGridSearch
  dsimp only
  rw [List.getD_eq_getElem _ _ hb, List.get_eq_getElem]
  exact ⟨rfl, rfl⟩

theorem cvResults_isSome {foldEval : ℕ → ℕ → Option ℚ}
    (h : ∀ a ∈ paramGrid, ∀ f, f < cvFolds → (foldEval a f).isSome = true) :
    ∀ r ∈ cvResults foldEval, r.meanTestScore.isSome = true := by
  intro r hr
  obtain ⟨a, ha, rfl⟩ := List.mem_map.mp hr
  show (meanScore ((List.range cvFolds).map (foldEval a))).isSome = true
  unfold meanScore
  rw [if_pos]
  · rfl
  · rw [List.all_eq_true]
    intro s hs
    obtain ⟨f, hf, rfl⟩ := List.mem_map.mp hs
    exact h a ha f (List.mem_range.mp hf)

/-- C1: on a training input where every fold fit succeeds, the report is a
permutation of the full candidate result set sorted in descending order of
mean held-out score, every candidate has a real (non-NaN) mean score, and
the selected best entry is the first-enumerated candidate attaining the
maximum mean held-out score: every candidate scores no higher, and every
earlier-enumerated candidate scores strictly lower. -/
theorem grid_search_ranks_and_selects (foldEval : ℕ → ℕ → Option ℚ)
    (h : ∀ a ∈ paramGrid, ∀ f, f < cvFolds → (foldEval a f).isSome = true) :
    ((runGridSearch foldEval).report).Perm (cvResults foldEval) ∧
    List.Sorted reportOrder ((runGridSearch foldEval).report) ∧
    (∀ r ∈ cvResults foldEval, r.meanTestScore.isSome = true) ∧
    ∃ hb : bestIndex (cvResults foldEval) < (cvResults foldEval).length,
      (runGridSearch foldEval).bestAlpha
        = ((cvResults foldEval).get ⟨bestIndex (cvResults foldEval), hb⟩).alpha ∧
      (runGridSearch foldEval).bestScore
        = ((cvResults foldEval).get
            ⟨bestIndex (cvResults foldEval), hb⟩).meanTestScore ∧
      (∀ r ∈ cvResults foldEval,
        scoreLe r.meanTestScore
          ((cvResults foldEval).get
            ⟨bestIndex (cvResults foldEval), hb⟩).meanTestScore = true) ∧
      ∀ j : Fin (cvResults foldEval).length,
        (j : ℕ) < bestIndex (cvResults foldEval) →
        ((cvResults foldEval).get j).meanTestScore
          ≠ ((cvResults foldEval).get
              ⟨bestIndex (cvResults foldEval), hb⟩).meanTestScore := by
  have hne : cvResults foldEval ≠ [] := by
    intro hnil
    have hl : (cvResults foldEval).length = 0 := by rw [hnil]; rfl
    unfold cvResults at hl
    rw [List.length_map] at hl
    exact absurd hl (by decide)
  have hb : bestIndex (cvResults foldEval) < (cvResults foldEval).length :=
    bestIndex_lt hne
  have hmean := bestIndex_mean hb
  refine ⟨List.perm_insertionSort reportOrder (cvResults foldEval),
    List.sorted_insertionSort reportOrder (cvResults foldEval),
    cvResults_isSome h, hb, (runGridSearch_best foldEval hb).1,
    (runGridSearch_best foldEval hb).2, ?_, ?_⟩
  · intro r hr
    rw [hmean]
    exact maxMean_upper hr
  · intro j hj
    rw [hmean]
    exact bestIndex_first hb j hj

/-- C1 witness: with every fold succeeding at score 1, the hypothesis holds
and the report is a permutation of the full result set. -/
theorem grid_search_ranks_and_selects_witness :
    (∀ a ∈ paramGrid, ∀ f, f < cvFolds →
      ((fun _ _ => some (1 : ℚ)) a f).isSome = true) ∧
    ((runGridSearch (fun _ _ => some (1 : ℚ))).report).Perm
      (cvResults (fun _ _ => some (1 : ℚ))) :=
  ⟨fun _ _ _ _ => rfl,
   (grid_search_ranks_and_selects (fun _ _ => some (1 : ℚ))
      (fun _ _ _ _ => rfl)).1⟩

/-- A concrete numeric backend for closed runs: identity square root and a
solver returning zero weights. -/
def nbDemo : NumericBackend :=
  { sqrt := fun q => q, ridgeSolve := fun _ _ _ => ([], 0) }

/-- A small two-row training frame with valid sentiments. -/
def demoRows : List Row :=
  [⟨"1", "u", "aa bb", 2, "pos"⟩, ⟨"2", "v", "bb cc", 2, "neg"⟩]

/-- Ratings for the demo frame. -/
def demoYs : List ℚ := [8, 3]

/-- A file system whose output directory already exists and holds no
artifacts. -/
def fsReady : FileSystem :=
  { dirExists := true, csvWritten := none, modelWritten := none }

/-- A per-fold evaluation where candidate 500's first fold raises and every
other (candidate, fold) pair fits successfully with score alpha/1000. -/
def failingFoldEval (a f : ℕ) : Option ℚ :=
  if a = 500 ∧ f = 0 then none else some ((a : ℚ) / 1000)

/-- C2 counterexample: with candidate 500's first fold raising, the search
still completes: a full ten-row ranking is reported, a best candidate is
selected, and the whole run finishes without error — refuting the claim
that any single fold error terminates the run with no ranking reported. -/
theorem fold_error_not_fatal_cex :
    failingFoldEval 500 0 = none ∧
    (500 ∈ paramGrid ∧ 0 < cvFolds) ∧
    (runGridSearch failingFoldEval).report.length = 10 ∧
    (runGridSearch failingFoldEval).bestAlpha = 950 ∧
    (mainRun nbDemo failingFoldEval demoRows demoYs true fsReady).2 = none ∧
    (mainRun nbDemo failingFoldEval demoRows demoYs true fsReady).1.csvWritten
      = some (runGridSearch failingFoldEval).report := by
  refine ⟨rfl, by decide, ?_, ?_, ?_, ?_⟩ <;> with_unfolding_all rfl

/-- C2 amended: a raising fold fit is never fatal: for every per-fold
outcome the search completes, the report is a full ranking (a permutation
of the one-row-per-candidate result set), and a candidate any of whose
folds raised gets mean test score NaN (the default `error_score` path)
instead of aborting the run. -/
theorem fold_error_recorded_as_nan (foldEval : ℕ → ℕ → Option ℚ) :
    ((runGridSearch foldEval).report).Perm (cvResults foldEval) ∧
    (runGridSearch foldEval).report.length = paramGrid.length ∧
    ∀ r ∈ cvResults foldEval, (∃ s ∈ r.foldScores, s = none) →
      r.meanTestScore = none := by
  refine ⟨List.perm_insertionSort reportOrder (cvResults foldEval), ?_, ?_⟩
  · have h1 : (runGridSearch foldEval).report.length
        = (cvResults foldEval).length :=
      (List.perm_insertionSort reportOrder (cvResults foldEval)).length_eq
    rw [h1]
    unfold cvResults
    rw [List.length_map]
  · intro r hr hex
    obtain ⟨a, ha, rfl⟩ := List.mem_map.mp hr
    obtain ⟨s, hs, rfl⟩ := hex
    show meanScore ((List.range cvFolds).map (foldEval a)) = none
    unfold meanScore
    rw [if_neg]
    intro hall
    have hcontra := List.all_eq_true.mp hall none hs
    exact absurd hcontra (by decide)

/-- C2 amended witness: candidate 500's row has a raised fold, and its mean
is recorded as NaN. -/
theorem fold_error_recorded_as_nan_witness :
    (evalCandidate failingFoldEval 500).meanTestScore = none :=
  (fold_error_recorded_as_nan failingFoldEval).2.2
    (evalCandidate failingFoldEval 500)
    (List.mem_map.mpr ⟨500, by decide, rfl⟩)
    ⟨none, List.mem_map.mpr ⟨0, by decide, rfl⟩, rfl⟩

/-- C3 counterexample: main called without the global `arguments` binding
(everything else in place) writes the report csv and then fails before the
model dump: the run errors with the csv present and the model absent,
refuting all-or-nothing artifact writing. -/
theorem partial_artifact_after_report_cex :
    (mainRun nbDemo (fun _ _ => some 1) demoRows demoYs false fsReady).2
      = some (.nameError "arguments") ∧
    (mainRun nbDemo (fun _ _ => some 1) demoRows demoYs false fsReady).1.csvWritten
      = some (runGridSearch (fun _ _ => some 1)).report ∧
    (mainRun nbDemo (fun _ _ => some 1) demoRows demoYs false fsReady).1.modelWritten
      = none := by
  refine ⟨?_, ?_, ?_⟩ <;> with_unfolding_all rfl

/-- C3 amended: the report is written first and the directory only created
afterwards, just before the model dump: a run over a missing directory
fails with nothing written and the directory still absent; a successful run
writes both artifacts; and on a fresh state the model is only ever written
after the report, so a failure between the two writes leaves the report
alone on disk. -/
theorem artifact_write_order (nb : NumericBackend)
    (foldEval : ℕ → ℕ → Option ℚ) (rows : List Row) (ys : List ℚ)
    (argsDef : Bool) (fs0 : FileSystem) (hm0 : fs0.modelWritten = none) :
    (fs0.dirExists = false →
      (mainRun nb foldEval rows ys argsDef fs0).1 = fs0 ∧
      (mainRun nb foldEval rows ys argsDef fs0).2 ≠ none) ∧
    ((mainRun nb foldEval rows ys argsDef fs0).2 = none →
      (mainRun nb foldEval rows ys argsDef fs0).1.csvWritten
        = some (runGridSearch foldEval).report ∧
      (mainRun nb foldEval rows ys argsDef fs0).1.modelWritten ≠ none) ∧
    ((mainRun nb foldEval rows ys argsDef fs0).1.modelWritten ≠ none →
      (mainRun nb foldEval rows ys argsDef fs0).1.csvWritten
        = some (runGridSearch foldEval).report) := by
  unfold mainRun
  dsimp only
  cases hfit : fitPipeline nb initPipeline (runGridSearch foldEval).bestAlpha
      rows ys with
  | error e =>
      refine ⟨fun _ => ⟨rfl, by simp⟩, by simp, ?_⟩
      intro hm
      exact absurd hm0 hm
  | ok be =>
      dsimp only
      by_cases hd : fs0.dirExists = false
      · rw [if_pos hd]
        refine ⟨fun _ => ⟨rfl, by simp⟩, by simp, ?_⟩
        intro hm
        exact absurd hm0 hm
      · rw [if_neg hd, fitPipeline_st_irrel nb be initPipeline _ rows ys, hfit]
        dsimp only
        by_cases ha : argsDef = false
        · rw [if_pos ha]
          exact ⟨fun hd' => absurd hd' hd, by simp, fun _ => rfl⟩
        · rw [if_neg ha]
          exact ⟨fun hd' => absurd hd' hd, fun _ => ⟨rfl, by simp⟩, fun _ => rfl⟩

/-- C3 amended witness: a run over a missing output directory fails with no
artifact written and the directory left uncreated. -/
theorem artifact_write_order_witness :
    (mainRun nbDemo (fun _ _ => some 1) demoRows demoYs true
        ⟨false, none, none⟩).1 = ⟨false, none, none⟩ ∧
    (mainRun nbDemo (fun _ _ => some 1) demoRows demoYs true
        ⟨false, none, none⟩).2 ≠ none :=
  (artifact_write_order nbDemo (fun _ _ => some 1) demoRows demoYs true
    ⟨false, none, none⟩ rfl).1 rfl

/-- C6: on a successful run the artifact handed to joblib.dump is exactly
the pipeline carrying the best candidate's regularization strength, refit
from scratch (from the unfitted pipeline state) on the entire training
frame. -/
theorem dumped_model_is_best_refit (nb : NumericBackend)
    (foldEval : ℕ → ℕ → Option ℚ) (rows : List Row) (ys : List ℚ)
    (argsDef : Bool) (fs0 : FileSystem)
    (h : (mainRun nb foldEval rows ys argsDef fs0).2 = none) :
    ∃ m, fitPipeline nb initPipeline (runGridSearch foldEval).bestAlpha rows ys
        = .ok m ∧
      (mainRun nb foldEval rows ys argsDef fs0).1.modelWritten = some m ∧
      m.alpha = (runGridSearch foldEval).bestAlpha := by
  unfold mainRun at h ⊢
  dsimp only at h ⊢
  cases hfit : fitPipeline nb initPipeline (runGridSearch foldEval).bestAlpha
      rows ys with
  | error e =>
      rw [hfit] at h
      simp at h
  | ok be =>
      rw [hfit] at h
      dsimp only at h ⊢
      by_cases hd : fs0.dirExists = false
      · rw [if_pos hd] at h
        simp at h
      · rw [if_neg hd] at h ⊢
        rw [fitPipeline_st_irrel nb be initPipeline _ rows ys, hfit] at h ⊢
        dsimp only at h ⊢
        by_cases ha : argsDef = false
        · rw [if_pos ha] at h
          simp at h
        · rw [if_neg ha] at h ⊢
          exact ⟨be, rfl, rfl, fitPipeline_alpha hfit⟩

/-- C6 witness: a concrete successful run dumps the refit best pipeline. -/
theorem dumped_model_is_best_refit_witness :
    (mainRun nbDemo (fun _ _ => some 1) demoRows demoYs true fsReady).2
      = none ∧
    ∃ m, fitPipeline nbDemo initPipeline
          (runGridSearch (fun _ _ => some 1)).bestAlpha demoRows demoYs
        = .ok m ∧
      (mainRun nbDemo (fun _ _ => some 1) demoRows demoYs true
          fsReady).1.modelWritten = some m ∧
      m.alpha = (runGridSearch (fun _ _ => some 1)).bestAlpha :=
  ⟨by with_unfolding_all rfl,
   dumped_model_is_best_refit nbDemo (fun _ _ => some 1) demoRows demoYs true
     fsReady (by with_unfolding_all rfl)⟩

/-- C10: when main is called directly (no global `arguments` binding), the
directory exists and the refit succeeds, the run raises NameError for
`arguments` after the report csv has been written and with the model
artifact still unwritten. -/
theorem direct_call_raises_name_error (nb : NumericBackend)
    (foldEval : ℕ → ℕ → Option ℚ) (rows : List Row) (ys : List ℚ)
    (fs0 : FileSystem) (hd : fs0.dirExists = true)
    (hm0 : fs0.modelWritten = none)
    (hfit : ∃ m, fitPipeline nb initPipeline
        (runGridSearch foldEval).bestAlpha rows ys = .ok m) :
    (mainRun nb foldEval rows ys false fs0).2 = some (.nameError "arguments") ∧
    (mainRun nb foldEval rows ys false fs0).1.csvWritten
      = some (runGridSearch foldEval).report ∧
    (mainRun nb foldEval rows ys false fs0).1.modelWritten = none := by
  obtain ⟨m, hm⟩ := hfit
  unfold mainRun
  dsimp only
  rw [hm]
  dsimp only
  rw [if_neg (by rw [hd]; exact fun hc => Bool.noConfusion hc)]
  rw [fitPipeline_st_irrel nb m initPipeline _ rows ys, hm]
  dsimp only
  rw [if_pos rfl]
  exact ⟨rfl, rfl, hm0⟩

/-- C10 witness: the concrete direct call errors with NameError and leaves
the model unwritten. -/
theorem direct_call_raises_name_error_witness :
    (mainRun nbDemo (fun _ _ => some 1) demoRows demoYs false fsReady).2
      = some (.nameError "arguments") ∧
    (mainRun nbDemo (fun _ _ => some 1) demoRows demoYs false
        fsReady).1.modelWritten = none :=
  ⟨(direct_call_raises_name_error nbDemo (fun _ _ => some 1) demoRows demoYs
      fsReady rfl rfl ⟨_, by with_unfolding_all rfl⟩).1,
   (direct_call_raises_name_error nbDemo (fun _ _ => some 1) demoRows demoYs
      fsReady rfl rfl ⟨_, by with_unfolding_all rfl⟩).2.2⟩
